import Mathlib

/-!
Verification development for the card-detection system in
src/card_detector.py.  The Python code is shallowly embedded: dictionaries
become association lists, numpy means become rational arithmetic over pixel
lists, floating-point quantities become rationals, and the wall-clock session
loop becomes a function driven by an explicit script of timestamped events.
A Python expression that can raise (division by zero) is modelled with
Option, where none stands for the raised exception.
-/

namespace CardDetector

/-- Per-frame tally, mirroring the Python defaultdict frame_card_counts of
detect_cards_in_frame: a list of (label, count) pairs. -/
abbrev Tally := List (String × Nat)

/-- Cumulative statistics held on the CardDetector instance: card_counts
(a defaultdict from label to count), total_frames_processed and
total_cards_detected (lines 34 to 36 of card_detector.py). -/
structure Stats where
  card_counts : List (String × Nat)
  total_frames_processed : Nat
  total_cards_detected : Nat
deriving DecidableEq

/-- State of the statistics right after CardDetector.__init__: empty
card_counts, zero frames, zero detections. -/
def initStats : Stats :=
  { card_counts := [], total_frames_processed := 0, total_cards_detected := 0 }

/-- Embedding of the defaultdict update self.card_counts[card_type] += count
(line 161): bump the entry for the key, creating it at the end on first
occurrence. -/
def bump : List (String × Nat) → String → Nat → List (String × Nat)
  | [], k, c => [(k, c)]
  | (k2, v) :: rest, k, c =>
      if k2 = k then (k2, v + c) :: rest else (k2, v) :: bump rest k c

/-- Embedding of the for-loop of capture_and_process_frame (lines 160 to 162):
for each (card_type, count) pair of the tally, add count to the per-label
entry and to total_cards_detected, in order. -/
def addDetections : Stats → Tally → Stats
  | st, [] => st
  | st, (k, c) :: rest =>
      addDetections
        { st with
          card_counts := bump st.card_counts k c,
          total_cards_detected := st.total_cards_detected + c } rest

/-- Embedding of the statistics update of capture_and_process_frame
(lines 158 to 162): increment total_frames_processed by one unconditionally,
then fold the detected tally into the cumulative counters. -/
def appendTally (st : Stats) (tally : Tally) : Stats :=
  addDetections
    { st with total_frames_processed := st.total_frames_processed + 1 } tally

/-- Sum of all cumulative per-label counts. -/
def sumCounts (cc : List (String × Nat)) : Nat := (cc.map Prod.snd).sum

/-- Run a whole sequence of append operations from a starting state. -/
def applyTallies (st : Stats) (ts : List Tally) : Stats := ts.foldl appendTally st

/-- Aggregator invariant of the spec: total labeled detections equals the sum
over all labels of the cumulative per-label counts. -/
def statsInv (st : Stats) : Prop := st.total_cards_detected = sumCounts st.card_counts

/-- Embedding of reset_frame_stats (lines 52 to 62): the body is pass, so the
cumulative statistics are returned unchanged. -/
def reset_frame_stats (st : Stats) : Stats := st

/-- Aspect ratio of a bounding rectangle, line 97:
aspect_ratio equals float(w) / h if h greater than 0 else 0. -/
def aspectRatio (w h : Nat) : ℚ := if 0 < h then (w : ℚ) / (h : ℚ) else 0

/-- Geometric filter of detect_cards_in_frame (lines 89 to 99): a contour
with the given enclosed area and bounding-rectangle width and height is kept
as a candidate region exactly when neither continue statement fires: the
first rejects area below 1000 or above 100000, the second rejects an aspect
ratio below 0.5 or above 0.8. -/
def contourAdmitted (area : ℚ) (w h : Nat) : Bool :=
  if area < 1000 ∨ 100000 < area then false
  else if aspectRatio w h < 1/2 ∨ 4/5 < aspectRatio w h then false
  else true

/-- A pixel of a region of interest in the frame's channel order BGR:
(blue, green, red) 8-bit intensities. -/
abbrev Pixel := Nat × Nat × Nat

/-- Arithmetic mean of one channel over all pixels of a region, the embedding
of np.mean(roi, axis=(0, 1)) at line 125 for a single channel index. -/
def channelMean (roi : List Pixel) (f : Pixel → Nat) : ℚ :=
  ((roi.map f).sum : ℚ) / (roi.length : ℚ)

/-- Mean of channel 0 (blue). -/
def meanB (roi : List Pixel) : ℚ := channelMean roi (fun p => p.1)

/-- Mean of channel 1 (green). -/
def meanG (roi : List Pixel) : ℚ := channelMean roi (fun p => p.2.1)

/-- Mean of channel 2 (red). -/
def meanR (roi : List Pixel) : ℚ := channelMean roi (fun p => p.2.2)

/-- Embedding of _identify_card_type (lines 111 to 136): an empty region
returns None before any mean is computed; otherwise the threshold rules are
tried in order on the per-channel means, first match wins, with
unknown_card as the fallback. -/
def identify_card_type (roi : List Pixel) : Option String :=
  if roi.length = 0 then none
  else if 150 < meanR roi ∧ meanB roi < 100 ∧ meanG roi < 100 then
    some "heart_or_diamond"
  else if meanB roi < 50 ∧ meanG roi < 50 ∧ meanR roi < 50 then
    some "spade_or_club"
  else
    some "unknown_card"

/-- Embedding of the frame-rate recomputation step of run (lines 218 to 230):
the recomputation fires only when time_since_update has reached
update_interval; inside the branch the code divides fps_counter by
time_since_update, which in Python raises ZeroDivisionError when the divisor
is zero — modelled as none.  Outside the branch current_fps keeps its
previous value. -/
def tick_rate (update_interval : ℚ) (fps_counter : Nat) (time_since_update : ℚ)
    (current_fps : ℚ) : Option ℚ :=
  if update_interval ≤ time_since_update then
    if time_since_update = 0 then none
    else some ((fps_counter : ℚ) / time_since_update)
  else some current_fps

/-- Mutable per-run state of the session loop: the cumulative statistics plus
the interval-local fps_counter, the current frame-rate estimate and the time
of the last statistics report (lines 34 to 50, 202 to 203). -/
structure LoopState where
  stats : Stats
  fps_counter : Nat
  current_fps : ℚ
  last_update_time : ℚ
deriving DecidableEq

/-- Configuration of one run call: the statistics update interval, the
optional duration bound, and the session start time. -/
structure Config where
  update_interval : ℚ
  duration : Option ℚ
  start : ℚ
deriving DecidableEq

/-- Loop state right after run records the session start (lines 202 to 203):
fresh statistics, fps_counter zero, current_fps zero, last_update_time equal
to the session start time. -/
def initState (cfg : Config) : LoopState :=
  { stats := initStats, fps_counter := 0, current_fps := 0,
    last_update_time := cfg.start }

/-- Embedding of the duration test at line 208:
if duration and (time.time() - self.session_start_time) >= duration.
Python truthiness makes the test False when duration is None and also when
duration equals 0. -/
def duration_check (duration : Option ℚ) (elapsed : ℚ) : Bool :=
  match duration with
  | none => false
  | some d => if d = 0 then false else decide (d ≤ elapsed)

/-- One environment event per loop iteration: either a frame is captured and
processed (with its tally and the time read at line 218), or a
KeyboardInterrupt arrives, or frame acquisition fails with an error. -/
inductive IterEvent where
  | frame (tally : Tally) (t2 : ℚ)
  | interrupt
  | acqError
deriving DecidableEq

/-- How the while-loop of run was left: the break at line 209, a
KeyboardInterrupt, or an acquisition error raised inside
capture_and_process_frame. -/
inductive RawStop where
  | brk
  | kbInterrupt
  | acqFail
deriving DecidableEq

/-- How the whole run call ended, after exception handling: normal duration
expiry, an interrupt caught at line 238, or an acquisition error propagating
upward. -/
inductive StopReason where
  | durationExpired
  | interrupted
  | acquisitionFailed
deriving DecidableEq

/-- Embedding of the statistics-report block of run (lines 221 to 233),
entered when time_since_update has reached update_interval: recompute
current_fps, emit a snapshot, set last_update_time to the current time, zero
the interval-local fps_counter, and call reset_frame_stats on the cumulative
statistics.  The division mirrors line 223; at this call site
time_since_update is at least update_interval, so with a positive interval it
is nonzero. -/
def reportStep (st : LoopState) (t2 tsu : ℚ) : LoopState :=
  { st with
    current_fps := (st.fps_counter : ℚ) / tsu,
    last_update_time := t2,
    fps_counter := 0,
    stats := reset_frame_stats st.stats }

/-- Embedding of the while-loop of run (lines 206 to 236), driven by a finite
script of events, each carrying the time t1 read by the duration test: stop
with brk when the duration test fires, with kbInterrupt or acqFail when the
corresponding event occurs, otherwise process the frame, bump fps_counter,
and run the report block when the interval has elapsed.  Returns none when
the script runs out with the loop still going, together with the number of
periodic snapshots emitted so far. -/
def runFrom (cfg : Config) : LoopState → Nat → List (ℚ × IterEvent) →
    Option (RawStop × LoopState × Nat)
  | _, _, [] => none
  | st, snaps, (t1, ev) :: rest =>
    if duration_check cfg.duration (t1 - cfg.start) then some (.brk, st, snaps)
    else
      match ev with
      | .interrupt => some (.kbInterrupt, st, snaps)
      | .acqError => some (.acqFail, st, snaps)
      | .frame tally t2 =>
        let st1 : LoopState :=
          { st with stats := appendTally st.stats tally,
                    fps_counter := st.fps_counter + 1 }
        let tsu := t2 - st1.last_update_time
        if cfg.update_interval ≤ tsu then
          runFrom cfg (reportStep st1 t2 tsu) (snaps + 1) rest
        else
          runFrom cfg st1 snaps rest

/-- Outcome of a terminating run call: the stop reason, the final loop state,
the number of periodic snapshots emitted while running, and the number of
final snapshots emitted on the way out. -/
structure RunResult where
  reason : StopReason
  finalState : LoopState
  periodicSnaps : Nat
  finalSnaps : Nat
deriving DecidableEq

/-- Embedding of run (lines 205 to 244): execute the loop; a KeyboardInterrupt
is caught at line 238, an acquisition error propagates; on every exit path the
finally block at lines 240 to 244 displays the final statistics exactly once,
recorded in finalSnaps.  Returns none when the event script is exhausted with
the loop still running (the run has not terminated within the modelled
horizon, so control never reaches the finally block). -/
def run (cfg : Config) (events : List (ℚ × IterEvent)) : Option RunResult :=
  match runFrom cfg (initState cfg) 0 events with
  | none => none
  | some (r, st, snaps) =>
    let reason := match r with
      | .brk => StopReason.durationExpired
      | .kbInterrupt => StopReason.interrupted
      | .acqFail => StopReason.acquisitionFailed
    some { reason := reason, finalState := st, periodicSnaps := snaps,
           finalSnaps := 1 }

/-- Script made only of successfully captured frames: timestamp of the
duration test, the frame's tally, timestamp of the report test. -/
def frameScript (xs : List (ℚ × Tally × ℚ)) : List (ℚ × IterEvent) :=
  xs.map (fun x => (x.1, IterEvent.frame x.2.1 x.2.2))

lemma sumCounts_nil : sumCounts [] = 0 := rfl

lemma sumCounts_cons (k : String) (v : Nat) (rest : List (String × Nat)) :
    sumCounts ((k, v) :: rest) = v + sumCounts rest := by
  simp [sumCounts]

lemma sumCounts_bump (cc : List (String × Nat)) (k : String) (c : Nat) :
    sumCounts (bump cc k c) = sumCounts cc + c := by
  induction cc with
  | nil => simp [bump, sumCounts]
  | cons kv rest ih =>
    obtain ⟨k2, v⟩ := kv
    by_cases h : k2 = k
    · simp [bump, h, sumCounts_cons]
      omega
    · simp [bump, h, sumCounts_cons, ih]
      omega

lemma statsInv_addDetections (tally : Tally) :
    ∀ st : Stats, statsInv st → statsInv (addDetections st tally) := by
  induction tally with
  | nil => intro st h; simpa [addDetections] using h
  | cons kc rest ih =>
    intro st h
    obtain ⟨k, c⟩ := kc
    apply ih
    simp only [statsInv] at h ⊢
    simp [sumCounts_bump, h]

lemma statsInv_appendTally (st : Stats) (t : Tally) (h : statsInv st) :
    statsInv (appendTally st t) := by
  apply statsInv_addDetections
  exact h

lemma statsInv_applyTallies (ts : List Tally) :
    ∀ st : Stats, statsInv st → statsInv (applyTallies st ts) := by
  induction ts with
  | nil => intro st h; simpa [applyTallies] using h
  | cons t rest ih =>
    intro st h
    simp only [applyTallies, List.foldl_cons] at *
    exact ih _ (statsInv_appendTally st t h)

/-- C1: for every sequence of append operations, after each individual append
(every prefix of the sequence, starting from the freshly initialised
statistics) the cumulative total of labeled detections equals the sum over
all labels of the cumulative per-label counts. -/
theorem append_invariant_after_every_append (ts : List Tally) (n : Nat) :
    (applyTallies initStats (ts.take n)).total_cards_detected =
      sumCounts (applyTallies initStats (ts.take n)).card_counts :=
  statsInv_applyTallies _ _ (by simp [statsInv, initStats, sumCounts])

lemma total_frames_addDetections (tally : Tally) :
    ∀ st : Stats,
      (addDetections st tally).total_frames_processed = st.total_frames_processed := by
  induction tally with
  | nil => intro st; rfl
  | cons kc rest ih =>
    intro st
    obtain ⟨k, c⟩ := kc
    simp [addDetections, ih]

lemma total_frames_appendTally (st : Stats) (t : Tally) :
    (appendTally st t).total_frames_processed = st.total_frames_processed + 1 := by
  simp [appendTally, total_frames_addDetections]

lemma total_frames_applyTallies (ts : List Tally) :
    ∀ st : Stats,
      (applyTallies st ts).total_frames_processed =
        st.total_frames_processed + ts.length := by
  induction ts with
  | nil => intro st; simp [applyTallies]
  | cons t rest ih =>
    intro st
    simp only [applyTallies, List.foldl_cons] at *
    rw [ih, total_frames_appendTally]
    simp [List.length_cons]
    omega

/-- C5: after any sequence of N append operations from the freshly
initialised statistics, total_frames_processed equals exactly N, whether or
not any appended tally was empty. -/
theorem total_frames_counts_every_append (ts : List Tally) :
    (applyTallies initStats ts).total_frames_processed = ts.length := by
  rw [total_frames_applyTallies]
  simp [initStats]

lemma contourAdmitted_iff (area : ℚ) (w h : Nat) :
    contourAdmitted area w h = true ↔
      1000 ≤ area ∧ area ≤ 100000 ∧
        1/2 ≤ aspectRatio w h ∧ aspectRatio w h ≤ 4/5 := by
  unfold contourAdmitted
  split_ifs with h1 h2
  · simp only [Bool.false_eq_true, false_iff]
    rintro ⟨ha, hb, hc, hd⟩
    rcases h1 with h | h <;> linarith
  · simp only [Bool.false_eq_true, false_iff]
    rintro ⟨ha, hb, hc, hd⟩
    rcases h2 with h | h <;> linarith
  · push_neg at h1 h2
    exact iff_of_true rfl ⟨h1.1, h1.2, h2.1, h2.2⟩

/-- C2 counterexample: a contour whose area is exactly MAX_AREA (100000),
with bounding rectangle 3 by 5 (aspect ratio 0.6), is admitted by the filter
of detect_cards_in_frame, refuting the claim that area exactly MAX_AREA is
rejected: line 90 only rejects area strictly above 100000. -/
theorem area_at_max_admitted : contourAdmitted 100000 3 5 = true := by
  norm_num [contourAdmitted, aspectRatio]

/-- C2 amended: the area filter is a closed interval — a contour is admitted
exactly when 1000 is at most area, area is at most 100000, and the aspect
ratio lies in the closed band; in particular area exactly MIN_AREA (1000) and
area exactly MAX_AREA (100000) are both accepted. -/
theorem area_filter_closed_interval (area : ℚ) (w h : Nat) :
    (contourAdmitted area w h = true ↔
      1000 ≤ area ∧ area ≤ 100000 ∧
        1/2 ≤ aspectRatio w h ∧ aspectRatio w h ≤ 4/5) ∧
    contourAdmitted 1000 3 5 = true ∧ contourAdmitted 100000 3 5 = true :=
  ⟨contourAdmitted_iff area w h,
   by norm_num [contourAdmitted, aspectRatio],
   by norm_num [contourAdmitted, aspectRatio]⟩

/-- C9: for every contour whose area passes the area filter, admission is
equivalent to the aspect ratio lying in the closed interval from 0.5 to 0.8,
and a ratio exactly at MIN_AR (0.5) or exactly at MAX_AR (0.8) is admitted. -/
theorem aspect_filter_closed_at_bounds (area : ℚ) (w h : Nat)
    (harea : 1000 ≤ area ∧ area ≤ 100000) :
    (contourAdmitted area w h = true ↔
      1/2 ≤ aspectRatio w h ∧ aspectRatio w h ≤ 4/5) ∧
    (aspectRatio w h = 1/2 → contourAdmitted area w h = true) ∧
    (aspectRatio w h = 4/5 → contourAdmitted area w h = true) := by
  refine ⟨?_, ?_, ?_⟩
  · rw [contourAdmitted_iff]
    exact ⟨fun hh => ⟨hh.2.2.1, hh.2.2.2⟩,
           fun hh => ⟨harea.1, harea.2, hh.1, hh.2⟩⟩
  · intro har
    rw [contourAdmitted_iff]
    exact ⟨harea.1, harea.2, le_of_eq har.symm, by rw [har]; norm_num⟩
  · intro har
    rw [contourAdmitted_iff]
    exact ⟨harea.1, harea.2, by rw [har]; norm_num, le_of_eq har⟩

/-- C9 witness: concrete contours of area 5000 with rectangles 1 by 2
(ratio exactly 0.5) and 4 by 5 (ratio exactly 0.8) are admitted. -/
theorem aspect_filter_witness :
    contourAdmitted 5000 1 2 = true ∧ contourAdmitted 5000 4 5 = true := by
  constructor
  · exact (aspect_filter_closed_at_bounds 5000 1 2 (by norm_num)).2.1
      (by norm_num [aspectRatio])
  · exact (aspect_filter_closed_at_bounds 5000 4 5 (by norm_num)).2.2
      (by norm_num [aspectRatio])

/-- C10: a contour whose bounding rectangle has height 0 gets aspect ratio 0
by the conditional expression of line 97 — no division is performed — and 0
falls below MIN_AR, so the contour is rejected rather than raising. -/
theorem zero_height_rejected_without_division (area : ℚ) (w : Nat) :
    aspectRatio w 0 = 0 ∧ contourAdmitted area w 0 = false := by
  constructor
  · simp [aspectRatio]
  · unfold contourAdmitted
    split_ifs with h1 h2
    · rfl
    · rfl
    · exfalso
      push_neg at h2
      have h0 : aspectRatio w 0 = 0 := by simp [aspectRatio]
      rw [h0] at h2
      norm_num at h2

/-- C6: the classifier evaluates the threshold rules in priority order on the
per-channel means, first match wins: red-family, then black-family, then the
unknown_card fallback; an empty region yields none before any mean is
computed; and the concrete scenarios of the spec evaluate as stated. -/
theorem classifier_priority_rules (roi : List Pixel) :
    (roi = [] → identify_card_type roi = none) ∧
    (roi ≠ [] → 150 < meanR roi → meanB roi < 100 → meanG roi < 100 →
      identify_card_type roi = some "heart_or_diamond") ∧
    (roi ≠ [] → ¬(150 < meanR roi ∧ meanB roi < 100 ∧ meanG roi < 100) →
      meanB roi < 50 → meanG roi < 50 → meanR roi < 50 →
      identify_card_type roi = some "spade_or_club") ∧
    (roi ≠ [] → ¬(150 < meanR roi ∧ meanB roi < 100 ∧ meanG roi < 100) →
      ¬(meanB roi < 50 ∧ meanG roi < 50 ∧ meanR roi < 50) →
      identify_card_type roi = some "unknown_card") ∧
    identify_card_type [(50, 50, 200)] = some "heart_or_diamond" ∧
    identify_card_type [(30, 30, 30)] = some "spade_or_club" ∧
    identify_card_type [(100, 100, 100)] = some "unknown_card" ∧
    identify_card_type [] = none := by
  refine ⟨?_, ?_, ?_, ?_, ?_, ?_, ?_, ?_⟩
  · intro hnil
    simp [identify_card_type, hnil]
  · intro hne h1 h2 h3
    rw [identify_card_type,
        if_neg (by simpa [List.length_eq_zero] using hne),
        if_pos ⟨h1, h2, h3⟩]
  · intro hne hn1 hb hg hr
    rw [identify_card_type,
        if_neg (by simpa [List.length_eq_zero] using hne),
        if_neg hn1, if_pos ⟨hb, hg, hr⟩]
  · intro hne hn1 hn2
    rw [identify_card_type,
        if_neg (by simpa [List.length_eq_zero] using hne),
        if_neg hn1, if_neg hn2]
  · norm_num [identify_card_type, meanR, meanB, meanG, channelMean]
  · norm_num [identify_card_type, meanR, meanB, meanG, channelMean]
  · norm_num [identify_card_type, meanR, meanB, meanG, channelMean]
  · rfl

/-- C6 witness: the rule hypotheses are satisfiable — a one-pixel region with
means (30, 30, 30) is classified spade_or_club by the second rule. -/
theorem classifier_priority_witness :
    identify_card_type [(30, 30, 30)] = some "spade_or_club" := by
  have h := classifier_priority_rules [(30, 30, 30)]
  exact h.2.2.1 (by simp)
    (by norm_num [meanR, meanB, meanG, channelMean])
    (by norm_num [meanB, channelMean])
    (by norm_num [meanG, channelMean])
    (by norm_num [meanR, channelMean])

/-- C4: with a positive update interval (the configuration contract), the
frame-rate recomputation never raises ZeroDivisionError (the result is always
some rational, hence never NaN or infinity), leaves the previous estimate
unchanged when the elapsed time is 0, recomputes the rate as
fps_counter / time_since_update whenever the elapsed time reaches the
interval, yields rate 0 for 0 frames over 5 seconds, and leaves the previous
rate unchanged for 50 frames over 0 seconds. -/
theorem tick_rate_safe (update_interval current_fps : ℚ) (fps_counter : Nat)
    (time_since_update : ℚ) (hpos : 0 < update_interval) :
    (tick_rate update_interval fps_counter time_since_update current_fps).isSome
        = true ∧
    (time_since_update = 0 →
      tick_rate update_interval fps_counter time_since_update current_fps
        = some current_fps) ∧
    (update_interval ≤ time_since_update →
      tick_rate update_interval fps_counter time_since_update current_fps
        = some ((fps_counter : ℚ) / time_since_update)) ∧
    (update_interval ≤ 5 →
      tick_rate update_interval 0 5 current_fps = some 0) ∧
    tick_rate update_interval 50 0 current_fps = some current_fps := by
  refine ⟨?_, ?_, ?_, ?_, ?_⟩
  · unfold tick_rate
    split_ifs with h1 h2
    · exfalso
      rw [h2] at h1
      linarith
    · rfl
    · rfl
  · intro h0
    rw [tick_rate, if_neg (by rw [h0]; exact not_le.mpr hpos)]
  · intro hle
    have hne : time_since_update ≠ 0 := by
      intro h0
      rw [h0] at hle
      linarith
    rw [tick_rate, if_pos hle, if_neg hne]
  · intro h5
    rw [tick_rate, if_pos h5, if_neg (by norm_num)]
    norm_num
  · rw [tick_rate, if_neg (not_le.mpr hpos)]

/-- C4 witness: at the default interval 1 with previous rate 7, 50 frames
over 0 seconds keep the rate at 7 and 0 frames over 5 seconds give rate 0. -/
theorem tick_rate_safe_witness :
    tick_rate 1 50 0 7 = some 7 ∧ tick_rate 1 0 5 7 = some 0 := by
  have h := tick_rate_safe 1 7 50 0 (by norm_num)
  have h2 := tick_rate_safe 1 7 0 5 (by norm_num)
  exact ⟨h.2.2.2.2, h2.2.2.2.1 (by norm_num)⟩

/-- C7: every terminating run emits exactly one final snapshot — the finally
block displays the final statistics once on each exit path, whether the loop
stopped by duration expiry, KeyboardInterrupt, or an acquisition error. -/
theorem final_snapshot_exactly_once (cfg : Config) (events : List (ℚ × IterEvent))
    (res : RunResult) (h : run cfg events = some res) : res.finalSnaps = 1 := by
  unfold run at h
  cases hr : runFrom cfg (initState cfg) 0 events with
  | none =>
    rw [hr] at h
    simp at h
  | some v =>
    obtain ⟨r, st, snaps⟩ := v
    rw [hr] at h
    simp only [Option.some.injEq] at h
    rw [← h]

def cfg1 : Config := { update_interval := 1, duration := none, start := 0 }

def res1 : RunResult :=
  { reason := .interrupted, finalState := initState cfg1,
    periodicSnaps := 0, finalSnaps := 1 }

/-- C7 witness: a concrete run interrupted on its first iteration terminates
with exactly one final snapshot. -/
theorem final_snapshot_witness :
    run cfg1 [(0, IterEvent.interrupt)] = some res1 ∧ res1.finalSnaps = 1 :=
  ⟨rfl, final_snapshot_exactly_once cfg1 [(0, IterEvent.interrupt)] res1 rfl⟩

/-- C8: the statistics-report step leaves the whole cumulative aggregator
state unchanged (total frames processed, total labeled detections, per-label
counts), resets only the interval-local fps_counter and the last-report
timestamp, and reset_frame_stats is the identity on the statistics. -/
theorem reporting_resets_only_interval_state (st : LoopState) (t2 tsu : ℚ) :
    (reportStep st t2 tsu).stats = st.stats ∧
    (reportStep st t2 tsu).stats.total_frames_processed
        = st.stats.total_frames_processed ∧
    (reportStep st t2 tsu).stats.total_cards_detected
        = st.stats.total_cards_detected ∧
    (reportStep st t2 tsu).stats.card_counts = st.stats.card_counts ∧
    (reportStep st t2 tsu).fps_counter = 0 ∧
    (reportStep st t2 tsu).last_update_time = t2 ∧
    reset_frame_stats st.stats = st.stats :=
  ⟨rfl, rfl, rfl, rfl, rfl, rfl, rfl⟩

lemma runFrom_duration_zero (interval start : ℚ) :
    ∀ (xs : List (ℚ × Tally × ℚ)) (st : LoopState) (snaps : Nat),
      runFrom { update_interval := interval, duration := some 0, start := start }
        st snaps (frameScript xs) = none := by
  intro xs
  induction xs with
  | nil => intro st snaps; rfl
  | cons x rest ih =>
    intro st snaps
    obtain ⟨t1, tally, t2⟩ := x
    simp only [frameScript, List.map_cons] at *
    rw [runFrom]
    simp only [duration_check, if_pos rfl, Bool.false_eq_true, if_false]
    split_ifs <;> first | exact ih _ _ | assumption

/-- C3 divergence: with duration 0 the duration test of line 208 is always
False (Python truthiness treats 0 as falsy), so on any finite script of
successfully processed frames the loop never stops and never reaches the
final snapshot — contradicting the claim that the loop stops immediately
after the first iteration and emits one final snapshot. -/
theorem duration_zero_never_stops :
    (∀ elapsed : ℚ, duration_check (some 0) elapsed = false) ∧
    (∀ (interval start : ℚ) (xs : List (ℚ × Tally × ℚ)),
      run { update_interval := interval, duration := some 0, start := start }
        (frameScript xs) = none) := by
  constructor
  · intro e
    simp [duration_check]
  · intro interval start xs
    unfold run
    rw [runFrom_duration_zero]

end CardDetector
